import Mathlib

/-!
# Verification of the LVMH supplier risk-management core

Shallow embedding of the risk-scoring and data-collection core of the
repository (src/app.py and src/data_collection.py).

Python floats are modelled as rationals (all constants in the source are
small decimals and the claims are about exact arithmetic relations);
pandas NaN / missing fields are modelled as `Option`; the external
OpenAI call is modelled by an oracle value describing its outcome; the
streamlit session-state cache is modelled as an explicit association
list threaded through `get_external_context`.
-/

namespace LVMH

/-! ## Configuration tables (src/app.py lines 38-54) -/

/-- The dict `RISK_WEIGHTS` from src/app.py: the six factor weights. -/
def RISK_WEIGHTS_certification : ℚ := 25/100
def RISK_WEIGHTS_geopolitical : ℚ := 20/100
def RISK_WEIGHTS_environmental : ℚ := 20/100
def RISK_WEIGHTS_compliance : ℚ := 20/100
def RISK_WEIGHTS_capacity_utilization : ℚ := 10/100
def RISK_WEIGHTS_operational : ℚ := 5/100

/-- The dict `GEOPOLITICAL_RISK_BY_COUNTRY` from src/app.py lines 47-54. -/
def GEOPOLITICAL_RISK_BY_COUNTRY : List (String × ℚ) :=
  [("CN", 65/100), ("IN", 55/100), ("BD", 70/100), ("VN", 50/100), ("ID", 45/100),
   ("PK", 75/100), ("TH", 40/100), ("MM", 80/100), ("KH", 65/100), ("LA", 60/100),
   ("KR", 25/100), ("JP", 15/100), ("TW", 45/100), ("IT", 30/100), ("PT", 25/100),
   ("ES", 30/100), ("FR", 20/100), ("DE", 15/100), ("UK", 25/100), ("TR", 55/100),
   ("BR", 50/100), ("MX", 45/100), ("CL", 20/100), ("AU", 10/100), ("GR", 35/100),
   ("BG", 40/100), ("RO", 38/100), ("CZ", 20/100), ("PL", 35/100), ("HU", 25/100)]

/-- The lookup `GEOPOLITICAL_RISK_BY_COUNTRY.get(country, 0.50)` — dict lookup with
default 0.50, as used at src/app.py lines 74, 125, 139, 190, 212. -/
def geoLookup (country : String) : ℚ :=
  ((GEOPOLITICAL_RISK_BY_COUNTRY.lookup country).getD (50/100))

/-! ## Supplier row (the columns the scorer reads)

A pandas row; `none` models a NaN / missing value (`pd.isna`). -/

structure SupplierRow where
  certifications : Option String
  country : Option String
deriving Repr, DecidableEq

/-! ## Certification scoring (src/app.py lines 174-183) -/

/-- The dict `cert_map` from src/app.py line 180. -/
def cert_map : List (String × ℚ) :=
  [("GOTS", 90/100), ("GRS", 85/100), ("RWS", 88/100), ("ZDHC", 82/100), ("WRAP", 80/100)]

/-- The lookup `cert_map.get(c.strip(), 0.70)` for one already-stripped token. -/
def certTrust (c : String) : ℚ := (cert_map.lookup c).getD (70/100)

/-- Python `str.split(',')` over the characters of a string: split at
every comma, keeping empty pieces (so the empty string yields one empty
piece, as in Python). -/
def splitOnComma : List Char → List (List Char)
  | [] => [[]]
  | c :: rest =>
    match splitOnComma rest with
    | [] => [[]]
    | h :: t => if c = ',' then [] :: h :: t else (c :: h) :: t

/-- Python `str.strip()`: drop whitespace from both ends. -/
def pyStrip (s : String) : String :=
  String.mk (((s.toList.dropWhile Char.isWhitespace).reverse.dropWhile
    Char.isWhitespace).reverse)

/-- Python `str.lower()` (the keys of this program are ASCII country
and city names, so per-character lowering is faithful). -/
def pyLower (s : String) : String := String.mk (s.toList.map Char.toLower)

/-- The comprehension `[c.strip() for c in cert_string.split(',') if c.strip()]` — split on
commas, strip whitespace, drop empty tokens (src/app.py line 182). -/
def splitCerts (s : String) : List String :=
  ((splitOnComma s.toList).map (fun cs => pyStrip (String.mk cs))).filter
    (fun c => c ≠ "")

/-- The function `calculate_certification_score` (src/app.py lines 174-183).
`none` models a NaN certification cell. -/
def calculate_certification_score (cert_string : Option String) : ℚ :=
  match cert_string with
  | none => 0
  | some s =>
    if s = "" then 0
    else
      let scores := (splitCerts s).map certTrust
      if scores = [] then 0 else scores.sum / scores.length

/-! ## Compliance risk (src/app.py lines 185-193) -/

/-- The function `calculate_compliance_risk` (src/app.py lines 185-193): base 0.3;
the country term is added only when the Country cell is not NaN. -/
def calculate_compliance_risk (country : Option String) : ℚ :=
  let base_risk : ℚ := 30/100
  let base_risk :=
    match country with
    | some c => base_risk + geoLookup c * (30/100)
    | none => base_risk
  min base_risk 1

/-! ## External context (src/app.py lines 60-143) -/

/-- The seven-field context dict returned by `get_external_context`
(the `regulatory_changes` free-text field of a successful response is
not read anywhere and is folded into the factor texts). -/
structure ExternalContext where
  geopolitical_factors : String
  environmental_factors : String
  geopolitical_score : ℚ
  environmental_score : ℚ
  climate_risk : String
  supply_chain_disruption_risk : String
deriving Repr, DecidableEq

/-- Outcome of the external OpenAI call on a cache miss, as seen by the
control flow of `get_external_context`:
* `jsonOk d` — the call returned, `json.loads` succeeded and the two
  `float(...)` coercions succeeded; `d` is the resulting context dict
  with its coerced scores (src/app.py lines 116-120);
* `jsonBad raw` — the call returned `raw` but `json.loads` or a
  `float(...)` coercion raised (src/app.py lines 121-129);
* `exn msg` — the call itself raised an exception with message `msg`
  (src/app.py lines 134-143). -/
inductive ApiOutcome where
  | jsonOk (d : ExternalContext)
  | jsonBad (raw : String)
  | exn (msg : String)
deriving Repr, DecidableEq

/-- The no-credential fallback context (src/app.py lines 71-78). -/
def fallbackNoKey (country : String) : ExternalContext :=
  { geopolitical_factors := "No external data available"
    environmental_factors := "No external data available"
    geopolitical_score := geoLookup country
    environmental_score := 50/100
    climate_risk := "Moderate"
    supply_chain_disruption_risk := "Moderate" }

/-- The parse-failure context built from the raw response text
(src/app.py lines 122-129): first 200 characters into the geopolitical
factors, the next 200 (or the literal string N/A) into the environmental
factors. -/
def fallbackParse (country raw : String) : ExternalContext :=
  { geopolitical_factors := raw.take 200
    environmental_factors := if 200 < raw.length then (raw.drop 200).take 200 else "N/A"
    geopolitical_score := geoLookup country
    environmental_score := 50/100
    climate_risk := "Moderate"
    supply_chain_disruption_risk := "Moderate" }

/-- The exception fallback context (src/app.py lines 136-143). -/
def fallbackError (country msg : String) : ExternalContext :=
  { geopolitical_factors := "Error: " ++ msg
    environmental_factors := "Unable to fetch"
    geopolitical_score := geoLookup country
    environmental_score := 50/100
    climate_risk := "Moderate"
    supply_chain_disruption_risk := "Moderate" }

/-- The session-state cache `st.session_state.external_context_cache`:
an insert-at-front association list (dict assignment overwrites, which
front insertion with front-first lookup models). -/
def Cache := List (String × ExternalContext)

/-- The cache key `f"{country}_{city}".lower()` (src/app.py line 64). -/
def cacheKey (country city : String) : String :=
  pyLower (country ++ "_" ++ city)

/-- Result of one call to `get_external_context`: the returned context,
the cache after the call, and how many external API calls were issued
(0 or 1). -/
structure ResolveResult where
  ctx : ExternalContext
  cache : List (String × ExternalContext)
  apiCalls : ℕ
deriving Repr

/-- The function `get_external_context` (src/app.py lines 60-143).

`hasKey` models whether `OPENAI_API_KEY` is configured; `oracle` models
the outcome of the external call should one be issued. Control flow of
the source: cache hit returns the cached dict with no call; no key
returns the static fallback WITHOUT caching; a call that returns is
parsed (or coerced into the parse-failure fallback) and the result is
stored in the cache before returning; a call that raises returns the
exception fallback WITHOUT caching. The `supplier_name` and
`production_category` arguments only feed the prompt text. -/
def get_external_context (hasKey : Bool) (oracle : ApiOutcome)
    (cache : List (String × ExternalContext))
    (country city _supplier_name _production_category : String) : ResolveResult :=
  let cache_key := cacheKey country city
  match cache.lookup cache_key with
  | some v => ⟨v, cache, 0⟩
  | none =>
    if hasKey = false then
      ⟨fallbackNoKey country, cache, 0⟩
    else
      match oracle with
      | .jsonOk d => ⟨d, (cache_key, d) :: cache, 1⟩
      | .jsonBad raw =>
          let d := fallbackParse country raw
          ⟨d, (cache_key, d) :: cache, 1⟩
      | .exn msg => ⟨fallbackError country msg, cache, 1⟩

/-! ## Overall risk score (src/app.py lines 195-244) -/

/-- The function `calculate_overall_risk_score` (src/app.py lines 195-244).
`external_context = none` models calling with `external_context=None`. -/
def calculate_overall_risk_score (supplier_row : SupplierRow)
    (external_context : Option ExternalContext) : ℚ :=
  let cert_score := calculate_certification_score supplier_row.certifications
  let certification_risk := 1 - cert_score
  let compliance_risk := calculate_compliance_risk supplier_row.country
  let geo_risk :=
    match external_context with
    | some e => e.geopolitical_score
    | none => geoLookup (supplier_row.country.getD "XX")
  let env_risk :=
    match external_context with
    | some e => e.environmental_score
    | none => 50/100
  let operational_risk : ℚ := 2/10
  let capacity_risk : ℚ := 3/10
  let overall_risk :=
    RISK_WEIGHTS_certification * certification_risk +
    RISK_WEIGHTS_compliance * compliance_risk +
    RISK_WEIGHTS_geopolitical * geo_risk +
    RISK_WEIGHTS_environmental * env_risk +
    RISK_WEIGHTS_operational * operational_risk +
    RISK_WEIGHTS_capacity_utilization * capacity_risk
  min overall_risk 1

/-- The function `get_risk_level` (src/app.py lines 246-256). -/
def get_risk_level (score : ℚ) : String :=
  if score < 25/100 then "Low"
  else if score < 50/100 then "Medium"
  else if score < 75/100 then "High"
  else "Critical"

/-- Rank of a risk level, for stating that `get_risk_level` is a
monotone step function of the score. -/
def riskLevelRank (level : String) : ℕ :=
  if level = "Low" then 0
  else if level = "Medium" then 1
  else if level = "High" then 2
  else 3

/-! ## Certification status views

src/data_collection.py lines 116-127 (Certification Updates mode) and
src/app.py lines 624-634 (Certification Tracker page). -/

/-- The per-certification status of the Certification Updates mode
(src/data_collection.py line 121):
`'Valid' if days_left > 30 else ('Expiring Soon' if days_left > 0 else 'Expired')`. -/
def certStatus (days_left : ℤ) : String :=
  if 30 < days_left then "Valid"
  else if 0 < days_left then "Expiring Soon"
  else "Expired"

/-- The status the Certification Tracker page assigns to every listed
certification (src/app.py line 633): the constant string Valid,
regardless of any expiry information. -/
def trackerStatus (_days_left : ℤ) : String := "Valid"

/-- Modelled from the spec (section 4.3): the claimed alert
classification by days-to-expiry — Expired (<0 days), Critical (<30),
Warning (<90), OK (≥90). No code under src/ computes these four
classes; this definition follows the words of the spec, for comparison
with `certStatus` and `trackerStatus`. -/
def specAlertStatus (days : ℤ) : String :=
  if days < 0 then "Expired"
  else if days < 30 then "Critical"
  else if days < 90 then "Warning"
  else "OK"

/-! ## Incident state mutations

src/data_collection.py lines 337-342 (report), 380-386 (clear),
474-478 (bulk upload). -/

/-- The two incident columns of a supplier record; `none` models a
NaN / None `incident_type` cell. -/
structure IncidentState where
  has_incidents : Bool
  incident_type : Option String
deriving Repr, DecidableEq

/-- The invariant of the spec (section 3): the has-incidents flag is
set iff the incident-type field is populated. -/
def incidentInvariant (s : IncidentState) : Prop :=
  s.has_incidents = true ↔ s.incident_type.isSome = true

instance (s : IncidentState) : Decidable (incidentInvariant s) := by
  unfold incidentInvariant; infer_instance

/-- The incident-report mutation (src/data_collection.py lines 339-341):
sets `has_incidents = True` and `incident_type` to the selected type
(the selectbox always yields a concrete type string). -/
def reportIncident (incident_type : String) (_s : IncidentState) : IncidentState :=
  ⟨true, some incident_type⟩

/-- The clear-incident-flag mutation (src/data_collection.py lines
382-383): sets `has_incidents = False` and `incident_type = None`. -/
def clearIncident (_s : IncidentState) : IncidentState :=
  ⟨false, none⟩

/-- The incident columns of one bulk-upload CSV row; `none` models an
absent column or a NaN cell (`pd.notna` false). -/
structure BulkIncidentRow where
  incident_flag : Option Bool
  incident_type : Option String
deriving Repr, DecidableEq

/-- The incident part of applying one bulk-upload row
(src/data_collection.py lines 474-478): the flag and the type are
copied independently, each only when present in the row; the type is
never cleared by a bulk row. -/
def applyBulkIncident (row : BulkIncidentRow) (s : IncidentState) : IncidentState :=
  let s :=
    match row.incident_flag with
    | some b => { s with has_incidents := b }
    | none => s
  match row.incident_type with
  | some t => { s with incident_type := some t }
  | none => s

/-! ## Mutation log read (src/data_collection.py lines 505-513)

The Data History mode reads data_log.jsonl with
`for line in f: activities.append(json.loads(line))` — a line on which
`json.loads` raises aborts the whole read (there is no try/except
around it). `parse` abstracts `json.loads` on one line: `none` models a
raised `JSONDecodeError`. -/

/-- The log read as the source performs it: parse the lines in order,
accumulating the parses; the first parse failure propagates (the
exception escapes the loop), so the read as a whole yields `none`. -/
def readLogCode {α : Type} (parse : String → Option α) : List String → Option (List α)
  | [] => some []
  | l :: rest =>
    match parse l with
    | none => none
    | some a =>
      match readLogCode parse rest with
      | none => none
      | some as => some (a :: as)

/-- Modelled from the spec (sections 6 and 7): the claimed tolerant
read that skips malformed lines and returns the parses of exactly the
well-formed lines. No code under src/ implements this skipping; this
definition follows the words of the spec, for comparison with
`readLogCode`. -/
def readLogSpec {α : Type} (parse : String → Option α) (lines : List String) :
    List α :=
  lines.filterMap parse

/-- A concrete one-line parser standing in for `json.loads` on a log
line, used to exhibit concrete log files: it fails exactly on lines
that do not start with an opening brace (as any non-JSON-object line
does), and otherwise returns the line. -/
def toyParseLine (line : String) : Option String :=
  match line.toList.head? with
  | some c => if c = '\x7b' then some line else none
  | none => none

/-! ## Helper lemmas -/

/-- A value returned by an association-list lookup is the second
component of some entry of the list. -/
theorem exists_key_of_lookup {β : Type} {l : List (String × β)} {a : String} {b : β}
    (h : l.lookup a = some b) : ∃ k, (k, b) ∈ l := by
  induction l with
  | nil => simp [List.lookup] at h
  | cons p t ih =>
    obtain ⟨k, v⟩ := p
    by_cases hk : (a == k) = true
    · simp only [List.lookup, hk] at h
      obtain rfl : v = b := by injection h
      exact ⟨k, List.mem_cons_self _ _⟩
    · rw [Bool.not_eq_true] at hk
      simp only [List.lookup, hk] at h
      obtain ⟨k2, hm⟩ := ih h
      exact ⟨k2, List.mem_cons_of_mem _ hm⟩

/-- Every entry of the static geopolitical table lies in [0, 1]. -/
theorem geo_table_bounds :
    ∀ p ∈ GEOPOLITICAL_RISK_BY_COUNTRY, 0 ≤ p.2 ∧ p.2 ≤ 1 := by
  intro p hp
  fin_cases hp <;> norm_num

/-- The static country lookup with its 0.50 default always lies in [0, 1]. -/
theorem geoLookup_bounds (c : String) : 0 ≤ geoLookup c ∧ geoLookup c ≤ 1 := by
  unfold geoLookup
  cases h : GEOPOLITICAL_RISK_BY_COUNTRY.lookup c with
  | none => norm_num
  | some v =>
    obtain ⟨k, hm⟩ := exists_key_of_lookup h
    exact geo_table_bounds (k, v) hm

/-- Every trust score in the certification map lies in [0.70, 0.90]. -/
theorem cert_table_bounds :
    ∀ p ∈ cert_map, 70/100 ≤ p.2 ∧ p.2 ≤ 90/100 := by
  intro p hp
  fin_cases hp <;> norm_num

/-- The per-certification trust score with its 0.70 default lies in
[0.70, 0.90]. -/
theorem certTrust_bounds (c : String) : 70/100 ≤ certTrust c ∧ certTrust c ≤ 90/100 := by
  unfold certTrust
  cases h : cert_map.lookup c with
  | none => norm_num
  | some v =>
    obtain ⟨k, hm⟩ := exists_key_of_lookup h
    exact cert_table_bounds (k, v) hm

/-- The mean of a nonempty list of rationals lying in [a, b] lies in [a, b]. -/
theorem mean_bounds {l : List ℚ} {a b : ℚ} (hne : l ≠ [])
    (h : ∀ x ∈ l, a ≤ x ∧ x ≤ b) :
    a ≤ l.sum / l.length ∧ l.sum / l.length ≤ b := by
  have hlen : 0 < (l.length : ℚ) := by
    have := List.length_pos.mpr hne
    exact_mod_cast this
  have hub : l.sum ≤ l.length • b := List.sum_le_card_nsmul l b fun x hx => (h x hx).2
  have hlb : l.length • a ≤ l.sum := List.card_nsmul_le_sum l a fun x hx => (h x hx).1
  rw [nsmul_eq_mul] at hub hlb
  constructor
  · rw [le_div_iff₀ hlen]; linarith
  · rw [div_le_iff₀ hlen]; linarith

/-- The certification score is 0 (no listed certification) or the mean
of trust scores, hence in [0.70, 0.90]. -/
theorem calculate_certification_score_bounds (cert : Option String) :
    calculate_certification_score cert = 0 ∨
      (70/100 ≤ calculate_certification_score cert ∧
       calculate_certification_score cert ≤ 90/100) := by
  unfold calculate_certification_score
  cases cert with
  | none => exact Or.inl rfl
  | some s =>
    by_cases hs : s = ""
    · simp [hs]
    · simp only [hs, if_false]
      by_cases hl : (splitCerts s).map certTrust = []
      · simp [hl]
      · simp only [hl, if_false]
        refine Or.inr (mean_bounds hl ?_)
        intro x hx
        obtain ⟨c, _, rfl⟩ := List.mem_map.mp hx
        exact certTrust_bounds c

/-- The compliance risk lies in [0.3, 1]. -/
theorem calculate_compliance_risk_bounds (country : Option String) :
    30/100 ≤ calculate_compliance_risk country ∧
      calculate_compliance_risk country ≤ 1 := by
  unfold calculate_compliance_risk
  cases country with
  | none => norm_num
  | some c =>
    obtain ⟨h0, h1⟩ := geoLookup_bounds c
    constructor
    · exact le_min (by linarith) (by norm_num)
    · exact min_le_right _ _

/-! ## Claim theorems -/

/-- C1: for every supplier row and every external context (whose
scores satisfy the [0,1] data-model bounds), the overall risk score
equals the weighted sum 0.25·certification + 0.20·compliance +
0.20·geopolitical + 0.20·environmental + 0.05·operational(=0.2) +
0.10·capacity(=0.3) clamped to at most 1.0, and the result lies in
[0.0, 1.0]. -/
theorem overall_risk_is_clamped_weighted_sum (row : SupplierRow)
    (ext : Option ExternalContext)
    (hg : ∀ e, ext = some e → 0 ≤ e.geopolitical_score ∧ e.geopolitical_score ≤ 1)
    (he : ∀ e, ext = some e → 0 ≤ e.environmental_score ∧ e.environmental_score ≤ 1) :
    calculate_overall_risk_score row ext =
      min ((25/100) * (1 - calculate_certification_score row.certifications) +
           (20/100) * calculate_compliance_risk row.country +
           (20/100) * (ext.elim (geoLookup (row.country.getD "XX"))
                                (fun e => e.geopolitical_score)) +
           (20/100) * (ext.elim ((50:ℚ)/100) (fun e => e.environmental_score)) +
           (5/100) * (2/10) + (10/100) * (3/10)) 1 ∧
    0 ≤ calculate_overall_risk_score row ext ∧
    calculate_overall_risk_score row ext ≤ 1 := by
  have hcerts : 0 ≤ 1 - calculate_certification_score row.certifications := by
    rcases calculate_certification_score_bounds row.certifications with h | ⟨h1, h2⟩
    · rw [h]; norm_num
    · linarith
  have hcomp := (calculate_compliance_risk_bounds row.country).1
  have hgeo : 0 ≤ ext.elim (geoLookup (row.country.getD "XX"))
      (fun e => e.geopolitical_score) := by
    cases ext with
    | none => exact (geoLookup_bounds _).1
    | some e => exact (hg e rfl).1
  have henv : 0 ≤ ext.elim ((50:ℚ)/100) (fun e => e.environmental_score) := by
    cases ext with
    | none => norm_num
    | some e => exact (he e rfl).1
  have heq : calculate_overall_risk_score row ext =
      min ((25/100) * (1 - calculate_certification_score row.certifications) +
           (20/100) * calculate_compliance_risk row.country +
           (20/100) * (ext.elim (geoLookup (row.country.getD "XX"))
                                (fun e => e.geopolitical_score)) +
           (20/100) * (ext.elim ((50:ℚ)/100) (fun e => e.environmental_score)) +
           (5/100) * (2/10) + (10/100) * (3/10)) 1 := by
    cases ext <;> rfl
  refine ⟨heq, ?_, ?_⟩
  · rw [heq]
    refine le_min ?_ (by norm_num)
    linarith [hcerts, hcomp, hgeo, henv]
  · rw [heq]; exact min_le_right _ _

/-- C1 witness: the theorem instantiated at a concrete supplier
(GOTS-certified, country FR) with no external context. -/
theorem overall_risk_is_clamped_weighted_sum_witness :
    0 ≤ calculate_overall_risk_score ⟨some "GOTS", some "FR"⟩ none ∧
    calculate_overall_risk_score ⟨some "GOTS", some "FR"⟩ none ≤ 1 :=
  (overall_risk_is_clamped_weighted_sum ⟨some "GOTS", some "FR"⟩ none
    (fun _ h => by cases h) (fun _ h => by cases h)).2

/-- C2: `get_risk_level` returns Low iff score < 0.25, Medium iff
0.25 ≤ score < 0.50, High iff 0.50 ≤ score < 0.75, Critical iff
score ≥ 0.75; the mapping is total (always one of the four levels),
deterministic (it is a function) and monotone in the score. -/
theorem risk_level_thresholds (s t : ℚ) :
    (get_risk_level s = "Low" ↔ s < 25/100) ∧
    (get_risk_level s = "Medium" ↔ 25/100 ≤ s ∧ s < 50/100) ∧
    (get_risk_level s = "High" ↔ 50/100 ≤ s ∧ s < 75/100) ∧
    (get_risk_level s = "Critical" ↔ 75/100 ≤ s) ∧
    (get_risk_level s = "Low" ∨ get_risk_level s = "Medium" ∨
     get_risk_level s = "High" ∨ get_risk_level s = "Critical") ∧
    (s ≤ t → riskLevelRank (get_risk_level s) ≤ riskLevelRank (get_risk_level t)) := by
  have hd : ∀ u : ℚ, (get_risk_level u = "Low" ↔ u < 25/100) ∧
      (get_risk_level u = "Medium" ↔ 25/100 ≤ u ∧ u < 50/100) ∧
      (get_risk_level u = "High" ↔ 50/100 ≤ u ∧ u < 75/100) ∧
      (get_risk_level u = "Critical" ↔ 75/100 ≤ u) := by
    intro u
    unfold get_risk_level
    split_ifs with h1 h2 h3 <;> refine ⟨?_, ?_, ?_, ?_⟩ <;> simp <;>
      first | linarith | (intro h; linarith) | (constructor <;> linarith)
  have hrank : ∀ u : ℚ, riskLevelRank (get_risk_level u) =
      if u < 25/100 then 0 else if u < 50/100 then 1
      else if u < 75/100 then 2 else 3 := by
    intro u
    unfold get_risk_level
    split_ifs <;> rfl
  have htotal : get_risk_level s = "Low" ∨ get_risk_level s = "Medium" ∨
      get_risk_level s = "High" ∨ get_risk_level s = "Critical" := by
    unfold get_risk_level
    split_ifs <;> simp
  refine ⟨(hd s).1, (hd s).2.1, (hd s).2.2.1, (hd s).2.2.2, htotal, ?_⟩
  intro hst
  rw [hrank s, hrank t]
  split_ifs <;> first | (exfalso; linarith) | norm_num

/-- C2 witness: the theorem at scores 0.24 and 0.80. -/
theorem risk_level_thresholds_witness :
    get_risk_level (24/100) = "Low" ∧
    get_risk_level (80/100) = "Critical" ∧
    riskLevelRank (get_risk_level (24/100)) ≤ riskLevelRank (get_risk_level (80/100)) :=
  ⟨(risk_level_thresholds (24/100) (80/100)).1.mpr (by norm_num),
   (risk_level_thresholds (80/100) (80/100)).2.2.2.1.mpr (by norm_num),
   (risk_level_thresholds (24/100) (80/100)).2.2.2.2.2 (by norm_num)⟩

/-- C3: the certification sub-risk (1 − `calculate_certification_score`,
as combined in `calculate_overall_risk_score`) equals 1 minus the mean
trust score of the listed certifications, with trust scores GOTS 0.90,
RWS 0.88, GRS 0.85, ZDHC 0.82, WRAP 0.80 and 0.70 for any other token,
and equals exactly 1.0 when the certification cell is absent or the
empty string. -/
theorem certification_risk_formula (cert : Option String) :
    ((cert = none ∨ cert = some "") → 1 - calculate_certification_score cert = 1) ∧
    (∀ s, cert = some s → splitCerts s ≠ [] →
      1 - calculate_certification_score cert =
        1 - ((splitCerts s).map certTrust).sum / ((splitCerts s).map certTrust).length) ∧
    certTrust "GOTS" = 90/100 ∧ certTrust "RWS" = 88/100 ∧ certTrust "GRS" = 85/100 ∧
    certTrust "ZDHC" = 82/100 ∧ certTrust "WRAP" = 80/100 ∧
    (∀ c, c ∉ ["GOTS", "GRS", "RWS", "ZDHC", "WRAP"] → certTrust c = 70/100) := by
  refine ⟨?_, ?_, rfl, rfl, rfl, rfl, rfl, ?_⟩
  · rintro (rfl | rfl) <;> simp [calculate_certification_score]
  · rintro s rfl hne
    have hs : s ≠ "" := by
      rintro rfl
      exact hne rfl
    have hmap : (splitCerts s).map certTrust ≠ [] := by
      intro h
      exact hne (List.map_eq_nil_iff.mp h)
    simp only [calculate_certification_score, hs, if_false, hmap]
  · intro c hc
    simp only [List.mem_cons, List.not_mem_nil, or_false] at hc
    push_neg at hc
    obtain ⟨h1, h2, h3, h4, h5⟩ := hc
    unfold certTrust cert_map
    simp only [List.lookup]
    rw [show (c == "GOTS") = false from beq_eq_false_iff_ne.mpr h1,
        show (c == "GRS") = false from beq_eq_false_iff_ne.mpr h2,
        show (c == "RWS") = false from beq_eq_false_iff_ne.mpr h3,
        show (c == "ZDHC") = false from beq_eq_false_iff_ne.mpr h4,
        show (c == "WRAP") = false from beq_eq_false_iff_ne.mpr h5]
    rfl

/-- C3 witness: the theorem at the empty cell, at a two-certification
string, and at an unrecognized certification. -/
theorem certification_risk_formula_witness :
    1 - calculate_certification_score (some "") = 1 ∧
    1 - calculate_certification_score (some "GOTS, RWS") =
      1 - ((splitCerts "GOTS, RWS").map certTrust).sum /
        ((splitCerts "GOTS, RWS").map certTrust).length ∧
    certTrust "OEKO-TEX" = 70/100 :=
  ⟨(certification_risk_formula (some "")).1 (Or.inr rfl),
   (certification_risk_formula (some "GOTS, RWS")).2.1 "GOTS, RWS" rfl (by decide),
   (certification_risk_formula (some "OEKO-TEX")).2.2.2.2.2.2.2 "OEKO-TEX" (by decide)⟩

/-- C9 counterexample: for a row whose country cell is missing (NaN),
`calculate_compliance_risk` returns 0.3, not the claimed
min(0.3 + 0.3 × 0.50, 1) = 0.45 obtained from the unknown-country
default. -/
theorem compliance_risk_missing_country_counterexample :
    calculate_compliance_risk none = 30/100 ∧
    calculate_compliance_risk none ≠ min ((30:ℚ)/100 + (30/100) * (50/100)) 1 := by
  constructor
  · unfold calculate_compliance_risk
    norm_num
  · unfold calculate_compliance_risk
    rw [min_eq_left (by norm_num), min_eq_left (by norm_num)]
    norm_num

/-- C9 amended: for a row with a present country the compliance
sub-risk equals min(0.3 + 0.3·g, 1.0) where g is the static table value
with default 0.50 for unrecognized countries; when the country cell is
absent the country term is skipped entirely and the result is the bare
base 0.3. -/
theorem compliance_risk_formula (country : Option String) :
    (∀ c, country = some c →
      calculate_compliance_risk country = min ((30:ℚ)/100 + geoLookup c * (30/100)) 1) ∧
    (country = none → calculate_compliance_risk country = 30/100) ∧
    (∀ c, GEOPOLITICAL_RISK_BY_COUNTRY.lookup c = none → geoLookup c = 50/100) := by
  refine ⟨?_, ?_, ?_⟩
  · rintro c rfl
    rfl
  · rintro rfl
    unfold calculate_compliance_risk
    norm_num
  · intro c h
    unfold geoLookup
    rw [h]
    rfl

/-- C9 amended witness: the theorem at country CN, at a missing
country, and at the unrecognized country XX. -/
theorem compliance_risk_formula_witness :
    calculate_compliance_risk (some "CN") =
      min ((30:ℚ)/100 + geoLookup "CN" * (30/100)) 1 ∧
    calculate_compliance_risk none = 30/100 ∧
    geoLookup "XX" = 50/100 :=
  ⟨(compliance_risk_formula (some "CN")).1 "CN" rfl,
   (compliance_risk_formula none).2.1 rfl,
   (compliance_risk_formula none).2.2 "XX" (by decide)⟩

/-- C4: on a cache miss, `get_external_context` is total (it returns
an `ExternalContext` for every input); with no credential configured,
or when the external call raises, the returned context has the static
country-table geopolitical score (0.50 for countries outside the
table) and environmental score 0.50; and the no-credential fallback is
a pure function of the country alone — two no-credential resolutions
with the same country agree whatever their city, supplier name,
category, cache or oracle. -/
theorem resolver_never_raises_and_falls_back (oracle : ApiOutcome)
    (cache : List (String × ExternalContext)) (country city name cat : String)
    (hmiss : cache.lookup (cacheKey country city) = none) :
    (get_external_context false oracle cache country city name cat).ctx =
      fallbackNoKey country ∧
    (fallbackNoKey country).geopolitical_score = geoLookup country ∧
    (fallbackNoKey country).environmental_score = 50/100 ∧
    (∀ msg, (get_external_context true (.exn msg) cache country city name
        cat).ctx.geopolitical_score = geoLookup country ∧
      (get_external_context true (.exn msg) cache country city name
        cat).ctx.environmental_score = 50/100) ∧
    (∀ c, GEOPOLITICAL_RISK_BY_COUNTRY.lookup c = none → geoLookup c = 50/100) ∧
    (∀ oracle2 cache2 city2 name2 cat2,
      cache2.lookup (cacheKey country city2) = none →
      (get_external_context false oracle2 cache2 country city2 name2 cat2).ctx =
        (get_external_context false oracle cache country city name cat).ctx) := by
  refine ⟨?_, rfl, rfl, ?_, ?_, ?_⟩
  · simp [get_external_context, hmiss]
  · intro msg
    constructor <;> simp [get_external_context, hmiss, fallbackError]
  · intro c h
    unfold geoLookup
    rw [h]
    rfl
  · intro oracle2 cache2 city2 name2 cat2 hmiss2
    simp [get_external_context, hmiss, hmiss2]

/-- C4 witness: the theorem at country BD, city Dhaka, on the empty
cache, with an exception oracle. -/
theorem resolver_never_raises_and_falls_back_witness :
    (get_external_context false (.exn "boom") [] "BD" "Dhaka" "S" "Knitwear").ctx =
      fallbackNoKey "BD" ∧
    (get_external_context true (.exn "boom") [] "BD" "Dhaka" "S"
      "Knitwear").ctx.environmental_score = 50/100 :=
  ⟨(resolver_never_raises_and_falls_back (.exn "boom") [] "BD" "Dhaka" "S"
      "Knitwear" rfl).1,
   ((resolver_never_raises_and_falls_back (.exn "boom") [] "BD" "Dhaka" "S"
      "Knitwear" rfl).2.2.2.1 "boom").2⟩

/-- C5 counterexample: a fallback resolution is NOT stored in the
cache before returning — after a no-credential call and after a call
whose external request raises, the cache is unchanged and the key is
still unbound, contradicting the claim that every call stores its
resolved value. -/
theorem resolver_fallback_not_cached_counterexample :
    (get_external_context false (.exn "boom") [] "FR" "Paris" "S" "Textile").cache = [] ∧
    (get_external_context true (.exn "boom") [] "FR" "Paris" "S" "Textile").cache = [] ∧
    ((get_external_context false (.exn "boom") [] "FR" "Paris" "S"
      "Textile").cache.lookup (cacheKey "FR" "Paris")) = none := by
  exact ⟨rfl, rfl, rfl⟩

/-- C5 amended: only contexts obtained from an external call that
returns (parsed, or coerced through the parse-failure branch) are
stored in the cache under the lowercased country+city key before
returning; the no-credential and exception fallbacks are returned with
the cache unchanged. When the first resolution's external call
returns, a second resolution of the same (country, city) pair —
regardless of casing — returns the identical cached value and the two
resolutions together trigger exactly one external call. -/
theorem resolver_caches_only_success (d : ExternalContext) (raw : String)
    (cache : List (String × ExternalContext)) (country city name cat : String)
    (hmiss : cache.lookup (cacheKey country city) = none) :
    ((get_external_context true (.jsonOk d) cache country city name cat).cache.lookup
        (cacheKey country city) = some d ∧
     (get_external_context true (.jsonOk d) cache country city name cat).ctx = d) ∧
    ((get_external_context true (.jsonBad raw) cache country city name cat).cache.lookup
        (cacheKey country city) = some (fallbackParse country raw)) ∧
    (∀ msg, (get_external_context false (.exn msg) cache country city name cat).cache =
        cache ∧
      (get_external_context true (.exn msg) cache country city name cat).cache = cache) ∧
    (∀ country2 city2 name2 cat2 oracle2,
      cacheKey country2 city2 = cacheKey country city →
      (get_external_context true oracle2
          (get_external_context true (.jsonOk d) cache country city name cat).cache
          country2 city2 name2 cat2).ctx =
        (get_external_context true (.jsonOk d) cache country city name cat).ctx ∧
      (get_external_context true (.jsonOk d) cache country city name cat).apiCalls +
        (get_external_context true oracle2
          (get_external_context true (.jsonOk d) cache country city name cat).cache
          country2 city2 name2 cat2).apiCalls = 1) := by
  refine ⟨⟨?_, ?_⟩, ?_, ?_, ?_⟩
  · simp [get_external_context, hmiss, List.lookup]
  · simp [get_external_context, hmiss]
  · simp [get_external_context, hmiss, List.lookup]
  · intro msg
    constructor <;> simp [get_external_context, hmiss]
  · intro country2 city2 name2 cat2 oracle2 hkey
    constructor <;> simp [get_external_context, hmiss, hkey, List.lookup]

/-- C5 amended witness: the theorem at country FR, city Paris, on the
empty cache, with a successful oracle; the second resolution uses the
casing (fr, PARIS). -/
theorem resolver_caches_only_success_witness :
    (get_external_context true
        (.jsonOk (fallbackNoKey "FR")) [] "FR" "Paris" "S" "Textile").cache.lookup
      (cacheKey "FR" "Paris") = some (fallbackNoKey "FR") ∧
    (get_external_context true (.exn "boom")
        (get_external_context true
          (.jsonOk (fallbackNoKey "FR")) [] "FR" "Paris" "S" "Textile").cache
        "fr" "PARIS" "S2" "Textile").ctx =
      (get_external_context true
        (.jsonOk (fallbackNoKey "FR")) [] "FR" "Paris" "S" "Textile").ctx :=
  ⟨(resolver_caches_only_success (fallbackNoKey "FR") "" [] "FR" "Paris" "S"
      "Textile" rfl).1.1,
   ((resolver_caches_only_success (fallbackNoKey "FR") "" [] "FR" "Paris" "S"
      "Textile" rfl).2.2.2 "fr" "PARIS" "S2" "Textile" (.exn "boom") rfl).1⟩

/-- C10 counterexample: with no credential configured, two calls whose
concatenated lowercased keys are equal but whose (country, city)
splits differ — (CN, x_y) and (CN_x, y), both with key cn_x_y — return
different contexts: the first falls back to the table entry for CN
(0.65), the second to the unknown-country default (0.50). -/
theorem resolver_key_collision_counterexample :
    cacheKey "CN" "x_y" = cacheKey "CN_x" "y" ∧
    (get_external_context false (.exn "") [] "CN" "x_y" "S1"
      "Cat").ctx.geopolitical_score = 65/100 ∧
    (get_external_context false (.exn "")
        (get_external_context false (.exn "") [] "CN" "x_y" "S1" "Cat").cache
        "CN_x" "y" "S2" "Cat").ctx.geopolitical_score = 50/100 ∧
    (65:ℚ)/100 ≠ 50/100 := by
  refine ⟨rfl, rfl, rfl, by norm_num⟩

/-- C10 amended: the result of a resolution that is served from the
cache depends on (country, city) only through the lowercased
concatenated key: whenever that key is bound in the cache, any call
whose key is equal — even for a distinct (country, city) split —
returns the same cached value; and after a first resolution whose
external call returned, any second call with an equal key returns that
first value. The uncached fallback paths depend on the raw country
(see the counterexample), so the dependence-through-the-key property
holds only for cached resolutions. -/
theorem resolver_cached_result_determined_by_key (hasKey : Bool)
    (o1 o2 : ApiOutcome) (cache : List (String × ExternalContext))
    (c1 t1 n1 g1 c2 t2 n2 g2 : String) (v d : ExternalContext)
    (hk : cacheKey c2 t2 = cacheKey c1 t1) :
    (cache.lookup (cacheKey c1 t1) = some v →
      (get_external_context hasKey o1 cache c1 t1 n1 g1).ctx = v ∧
      (get_external_context hasKey o2 cache c2 t2 n2 g2).ctx = v) ∧
    (cache.lookup (cacheKey c1 t1) = none →
      (get_external_context true o2
          (get_external_context true (.jsonOk d) cache c1 t1 n1 g1).cache
          c2 t2 n2 g2).ctx =
        (get_external_context true (.jsonOk d) cache c1 t1 n1 g1).ctx) := by
  constructor
  · intro hhit
    constructor <;> simp [get_external_context, hhit, hk]
  · intro hmiss
    simp [get_external_context, hmiss, hk, List.lookup]

/-- C10 amended witness: the theorem at the colliding splits
(CN, x_y) and (CN_x, y) with the key cn_x_y bound in the cache, and at
the success-then-hit composition. -/
theorem resolver_cached_result_determined_by_key_witness :
    (get_external_context false (.exn "")
      [(cacheKey "CN" "x_y", fallbackNoKey "CN")] "CN_x" "y" "S2" "Cat").ctx =
      fallbackNoKey "CN" ∧
    (get_external_context true (.exn "")
        (get_external_context true (.jsonOk (fallbackNoKey "CN")) [] "CN" "x_y"
          "S1" "Cat").cache
        "CN_x" "y" "S2" "Cat").ctx =
      (get_external_context true (.jsonOk (fallbackNoKey "CN")) [] "CN" "x_y"
        "S1" "Cat").ctx :=
  ⟨((resolver_cached_result_determined_by_key false (.exn "") (.exn "")
      [(cacheKey "CN" "x_y", fallbackNoKey "CN")] "CN" "x_y" "S1" "Cat"
      "CN_x" "y" "S2" "Cat" (fallbackNoKey "CN") (fallbackNoKey "CN") rfl).1
      (by simp [List.lookup])).2,
   (resolver_cached_result_determined_by_key true (.exn "") (.exn "")
      [] "CN" "x_y" "S1" "Cat" "CN_x" "y" "S2" "Cat" (fallbackNoKey "CN")
      (fallbackNoKey "CN") rfl).2 rfl⟩

/-- C6 counterexample: the code's per-certification classification is
not the claimed Expired/Critical/Warning/OK scheme — at 50 days to
expiry the claim says Warning but the Certification Updates mode says
Valid; at 0 days the claim says Critical but the code says Expired;
and the Certification Tracker page labels every certification Valid. -/
theorem cert_alert_classes_counterexample :
    specAlertStatus 50 = "Warning" ∧ certStatus 50 = "Valid" ∧
    specAlertStatus 0 = "Critical" ∧ certStatus 0 = "Expired" ∧
    trackerStatus 50 = "Valid" ∧ ("Warning" : String) ≠ "Valid" := by
  refine ⟨rfl, rfl, rfl, rfl, rfl, by simp⟩

/-- C6 amended: the Certification Updates mode classifies a held
certification by days-to-expiry into exactly three classes — Valid iff
more than 30 days remain, Expiring Soon iff between 1 and 30 days
remain, Expired iff 0 or fewer days remain — and the Certification
Tracker page assigns the constant status Valid to every certification. -/
theorem cert_status_classification (d : ℤ) :
    (certStatus d = "Valid" ↔ 30 < d) ∧
    (certStatus d = "Expiring Soon" ↔ 0 < d ∧ d ≤ 30) ∧
    (certStatus d = "Expired" ↔ d ≤ 0) ∧
    trackerStatus d = "Valid" := by
  unfold certStatus trackerStatus
  split_ifs with h1 h2 <;> refine ⟨?_, ?_, ?_, rfl⟩ <;> simp <;> omega

/-- C7 counterexample: a bulk-upload row that sets the incident flag
without supplying an incident type breaks the flag-iff-type invariant
on a previously incident-free record. -/
theorem bulk_incident_invariant_counterexample :
    incidentInvariant ⟨false, none⟩ ∧
    ¬ incidentInvariant (applyBulkIncident ⟨some true, none⟩ ⟨false, none⟩) := by
  constructor
  · simp [incidentInvariant]
  · simp [incidentInvariant, applyBulkIncident]

/-- C7 amended: the incident-report and clear-incident mutations
always establish (hence preserve) the flag-iff-type invariant; an
applied bulk-upload row preserves it only when it touches neither
incident field or sets the flag to true together with a type — a row
that sets only one of the two fields can break the invariant (see the
counterexample). -/
theorem incident_mutations_invariant (s : IncidentState) (t : String)
    (row : BulkIncidentRow) :
    incidentInvariant (reportIncident t s) ∧
    incidentInvariant (clearIncident s) ∧
    (incidentInvariant s →
      ((row.incident_flag = none ∧ row.incident_type = none) ∨
       (∃ ty, row.incident_flag = some true ∧ row.incident_type = some ty)) →
      incidentInvariant (applyBulkIncident row s)) := by
  refine ⟨by simp [incidentInvariant, reportIncident],
          by simp [incidentInvariant, clearIncident], ?_⟩
  intro hs hrow
  rcases hrow with ⟨hf, ht⟩ | ⟨ty, hf, ht⟩
  · simpa [applyBulkIncident, hf, ht] using hs
  · simp [incidentInvariant, applyBulkIncident, hf, ht]

/-- C7 amended witness: the theorem at an incident-free record, the
Labor Violation incident type, and a bulk row setting both fields. -/
theorem incident_mutations_invariant_witness :
    incidentInvariant (reportIncident "Labor Violation" ⟨false, none⟩) ∧
    incidentInvariant (clearIncident ⟨true, some "Quality Issue"⟩) ∧
    incidentInvariant
      (applyBulkIncident ⟨some true, some "Quality Issue"⟩ ⟨false, none⟩) :=
  ⟨(incident_mutations_invariant ⟨false, none⟩ "Labor Violation"
      ⟨some true, some "Quality Issue"⟩).1,
   (incident_mutations_invariant ⟨true, some "Quality Issue"⟩ "Labor Violation"
      ⟨some true, some "Quality Issue"⟩).2.1,
   (incident_mutations_invariant ⟨false, none⟩ "Labor Violation"
      ⟨some true, some "Quality Issue"⟩).2.2 (by simp [incidentInvariant])
      (Or.inr ⟨"Quality Issue", rfl, rfl⟩)⟩

/-- C8 counterexample: the Data History log read aborts on a malformed
line instead of skipping it — on a two-line log whose second line is
not JSON, the read as coded yields no result at all, not the parses of
the well-formed lines. -/
theorem log_read_aborts_counterexample :
    readLogCode toyParseLine ["\x7b\"a\": 1\x7d", "garbage"] = none ∧
    readLogSpec toyParseLine ["\x7b\"a\": 1\x7d", "garbage"] = ["\x7b\"a\": 1\x7d"] ∧
    readLogCode toyParseLine ["\x7b\"a\": 1\x7d", "garbage"] ≠
      some (readLogSpec toyParseLine ["\x7b\"a\": 1\x7d", "garbage"]) := by
  refine ⟨rfl, rfl, by decide⟩

/-- C8 amended: the log read is all-or-nothing — it returns the parses
of the lines exactly when every line is well-formed, and fails as a
whole as soon as any single line is malformed (it never skips a
malformed line and continues). -/
theorem log_read_all_or_nothing {α : Type} (parse : String → Option α)
    (lines : List String) :
    ((∀ l ∈ lines, (parse l).isSome) →
      readLogCode parse lines = some (readLogSpec parse lines)) ∧
    (∀ l ∈ lines, parse l = none → readLogCode parse lines = none) := by
  induction lines with
  | nil => exact ⟨fun _ => rfl, fun l hl => absurd hl (List.not_mem_nil l)⟩
  | cons x xs ih =>
    constructor
    · intro h
      have hx := h x (List.mem_cons_self x xs)
      obtain ⟨a, ha⟩ := Option.isSome_iff_exists.mp hx
      have hrest := ih.1 fun l hl => h l (List.mem_cons_of_mem x hl)
      simp [readLogCode, readLogSpec, List.filterMap_cons, ha, hrest]
    · intro l hl hnone
      rcases List.mem_cons.mp hl with rfl | hmem
      · simp [readLogCode, hnone]
      · have hrest := ih.2 l hmem hnone
        cases hpx : parse x <;> simp [readLogCode, hpx, hrest]

/-- C8 amended witness: the theorem at the concrete parser on an
all-well-formed log and on a log with one malformed line. -/
theorem log_read_all_or_nothing_witness :
    readLogCode toyParseLine ["\x7b\"a\": 1\x7d"] =
      some (readLogSpec toyParseLine ["\x7b\"a\": 1\x7d"]) ∧
    readLogCode toyParseLine ["\x7b\"a\": 1\x7d", "garbage"] = none :=
  ⟨(log_read_all_or_nothing toyParseLine ["\x7b\"a\": 1\x7d"]).1
      (by intro l hl; fin_cases hl; rfl),
   (log_read_all_or_nothing toyParseLine ["\x7b\"a\": 1\x7d", "garbage"]).2
      "garbage" (by simp) rfl⟩

end LVMH
